import Mathlib

/-!
Shallow embedding of `src/backend/app/main.py` (FastAPI application bootstrap
and request pipeline of the VDI platform backend).

External collaborators (database session, websocket connection manager, wall
clock) are passed as explicit parameters: a database call that can raise is an
`Except String` value carrying the exception message, the websocket manager's
live session count is a natural number, and the current wall-clock instant is
a `Datetime` value.  Logging is modelled by returning the list of log entries
a handler emits.  A Python exception is either an explicit `HTTPException`
(status code plus detail) or a raw exception carrying its message.
-/

/-- Log levels of the `logging` module as used in `main.py`
(`logger.debug` / `logger.warning` / `logger.error`). -/
inductive LogLevel where
  | debug
  | info
  | warning
  | error
deriving Repr, DecidableEq

/-- One emitted log record: its level, its message, and whether the call
passed `exc_info=True` (i.e. attached the full stack trace). -/
structure LogEntry where
  level : LogLevel
  msg : String
  exc_info : Bool
deriving Repr, DecidableEq

/-- Configuration snapshot (`app.config.settings`): the fields `main.py`
reads (`APP_NAME`, `DEBUG`, `CORS_ORIGINS`). -/
structure Settings where
  APP_NAME : String
  DEBUG : Bool
  CORS_ORIGINS : List String
deriving Repr, DecidableEq

/-- The parts of a FastAPI `Request` that `main.py` reads: `request.method`,
`request.url.path`, and the `Host` header consulted by the trusted-host
middleware. -/
structure Request where
  method : String
  path : String
  host : String
deriving Repr, DecidableEq

/-- An HTTP response produced inside the pipeline: its status code, its
headers, and its serialized body. -/
structure Response where
  status_code : Nat
  headers : List (String × String)
  body : String
deriving Repr, DecidableEq

/-- A Python exception as it propagates out of a handler: either an explicit
`fastapi.HTTPException status_code detail`, or any other (raw) exception
carrying its message. -/
inductive AppError where
  | httpException (status_code : Nat) (detail : String)
  | raw (msg : String)
deriving Repr, DecidableEq

/-! ## Datetime and `isoformat`

`main.py` calls `datetime.utcnow().isoformat()`.  The `datetime` library is
external; `isoformat` is modelled from its documented behaviour:
`YYYY-MM-DDTHH:MM:SS` with zero-padded fields, followed by `.ffffff` exactly
when the microsecond field is nonzero.  The digit-extraction padding below
agrees with `%04d`/`%02d`/`%06d` on every field value a `datetime` can hold
(`datetime` enforces `year ≤ 9999`, `month ≤ 12`, and so on, captured by
`Datetime.Valid`). -/

/-- A broken-down UTC instant as `datetime.utcnow()` returns it. -/
structure Datetime where
  year : Nat
  month : Nat
  day : Nat
  hour : Nat
  minute : Nat
  second : Nat
  microsecond : Nat
deriving Repr, DecidableEq

/-- The field bounds the Python `datetime` constructor enforces. -/
def Datetime.Valid (d : Datetime) : Prop :=
  1 ≤ d.year ∧ d.year ≤ 9999 ∧ 1 ≤ d.month ∧ d.month ≤ 12 ∧ 1 ≤ d.day ∧ d.day ≤ 31 ∧
  d.hour < 24 ∧ d.minute < 60 ∧ d.second < 60 ∧ d.microsecond < 1000000

instance (d : Datetime) : Decidable d.Valid := by
  unfold Datetime.Valid
  infer_instance

/-- Two-digit zero-padded decimal rendering (`%02d`) by digit extraction. -/
def pad2 (n : Nat) : List Char :=
  [Nat.digitChar (n / 10 % 10), Nat.digitChar (n % 10)]

/-- Three-digit zero-padded decimal rendering (`%03d`) by digit extraction. -/
def pad3 (n : Nat) : List Char :=
  [Nat.digitChar (n / 100 % 10), Nat.digitChar (n / 10 % 10), Nat.digitChar (n % 10)]

/-- Four-digit zero-padded decimal rendering (`%04d`) by digit extraction. -/
def pad4 (n : Nat) : List Char :=
  [Nat.digitChar (n / 1000 % 10), Nat.digitChar (n / 100 % 10),
   Nat.digitChar (n / 10 % 10), Nat.digitChar (n % 10)]

/-- Six-digit zero-padded decimal rendering (`%06d`) by digit extraction. -/
def pad6 (n : Nat) : List Char :=
  [Nat.digitChar (n / 100000 % 10), Nat.digitChar (n / 10000 % 10),
   Nat.digitChar (n / 1000 % 10), Nat.digitChar (n / 100 % 10),
   Nat.digitChar (n / 10 % 10), Nat.digitChar (n % 10)]

/-- Character sequence of `datetime.isoformat()`: date, `T`, time, and the
`.ffffff` microsecond part exactly when `microsecond ≠ 0`. -/
def isoformatChars (d : Datetime) : List Char :=
  pad4 d.year ++ '-' :: (pad2 d.month ++ '-' :: (pad2 d.day ++ 'T' ::
    (pad2 d.hour ++ ':' :: (pad2 d.minute ++ ':' ::
      (pad2 d.second ++ (if d.microsecond = 0 then [] else '.' :: pad6 d.microsecond))))))

/-- The string `datetime.isoformat()` returns. -/
def isoformat (d : Datetime) : String :=
  String.mk (isoformatChars d)

/-- Checks that seven characters are a `.ffffff` fractional-seconds block. -/
def sixDigitFrac : List Char → Bool
  | [p, f1, f2, f3, f4, f5, f6] =>
      p == '.' && f1.isDigit && f2.isDigit && f3.isDigit &&
      f4.isDigit && f5.isDigit && f6.isDigit
  | _ => false

/-- Recognizer for ISO-8601 combined date-time strings of the shape
`datetime.isoformat()` emits: `YYYY-MM-DDTHH:MM:SS` optionally followed by a
six-digit fractional-seconds block. -/
def isISO8601Chars : List Char → Bool
  | y1 :: y2 :: y3 :: y4 :: s1 :: m1 :: m2 :: s2 :: d1 :: d2 :: t ::
      h1 :: h2 :: s3 :: n1 :: n2 :: s4 :: c1 :: c2 :: rest =>
      y1.isDigit && y2.isDigit && y3.isDigit && y4.isDigit && s1 == '-' &&
      m1.isDigit && m2.isDigit && s2 == '-' && d1.isDigit && d2.isDigit &&
      t == 'T' && h1.isDigit && h2.isDigit && s3 == ':' && n1.isDigit && n2.isDigit &&
      s4 == ':' && c1.isDigit && c2.isDigit &&
      (rest.isEmpty || sixDigitFrac rest)
  | _ => false

/-- A string parses as an ISO-8601 combined date-time. -/
def isISO8601 (s : String) : Bool :=
  isISO8601Chars s.data

/-! ## Health endpoint bodies -/

/-- Response body of `GET /` (the `root` handler's returned dict). -/
structure RootBody where
  status : String
  service : String
  version : String
  timestamp : String
  active_users : Nat
deriving Repr, DecidableEq

/-- Response body of the success path of `GET /api/health`
(the `health_check` handler's returned dict: exactly these six keys). -/
structure HealthBody where
  status : String
  timestamp : String
  database : String
  websocket_manager : String
  active_users : Nat
  total_users : Nat
deriving Repr, DecidableEq

/-- The `root` handler for `GET /`.  `now` is `datetime.utcnow()` and
`activeUsers` is `manager.get_active_user_count()`, the websocket connection
manager's live count of open sessions (modelled from the spec as a natural
number, since the manager collaborator is external to this file). -/
def root (settings : Settings) (now : Datetime) (activeUsers : Nat) : RootBody :=
  { status := "healthy"
    service := settings.APP_NAME
    version := "1.0.0"
    timestamp := isoformat now
    active_users := activeUsers }

/-- The body of the `health_check` handler for `GET /api/health`, after the
`db` session has been resolved.  `countResult` is the outcome of
`db.query(User).count()`: `Except.ok n` when the query returns `n`, and
`Except.error e` when it raises an exception whose message is `e`.  On
success it returns the six-field dict; on failure it logs
`logger.error` with the exception message and raises
`HTTPException(status_code=500, detail="Health check failed")`. -/
def health_check (now : Datetime) (activeUsers : Nat)
    (countResult : Except String Nat) : Except AppError HealthBody × List LogEntry :=
  match countResult with
  | .ok user_count =>
      (.ok { status := "ok"
             timestamp := isoformat now
             database := "connected"
             websocket_manager := "active"
             active_users := activeUsers
             total_users := user_count }, [])
  | .error e =>
      (.error (.httpException 500 "Health check failed"),
       [⟨.error, "Health check failed: " ++ e, false⟩])

/-- The full `GET /api/health` endpoint including its dependency: FastAPI
resolves `db = Depends(get_db)` before the handler body runs, so a failure
while acquiring the session (`acquireDb = Except.error e`) propagates as the
raw exception, outside the handler's `try` block.  A successful acquisition
yields the behaviour of the count query, which is then handled by
`health_check`. -/
def health_endpoint (now : Datetime) (activeUsers : Nat)
    (acquireDb : Except String (Except String Nat)) :
    Except AppError HealthBody × List LogEntry :=
  match acquireDb with
  | .error e => (.error (.raw e), [])
  | .ok countResult => health_check now activeUsers countResult

/-! ## Exception handlers

`main.py` registers `http_exception_handler` for `HTTPException` and
`general_exception_handler` for every other `Exception`.  Both handlers
`return` a plain dict: the dict carries `success`, `error` and `status_code`
keys, and no HTTP transport status is set on the response by this code.
`ClientResponse.wireStatus` records a transport status explicitly set by the
application code, so for these handlers it is `none`. -/

/-- The uniform JSON error envelope `{success, error, status_code}`. -/
structure ErrorEnvelope where
  success : Bool
  error : String
  status_code : Nat
deriving Repr, DecidableEq

/-- What the client-facing error response consists of: the envelope the
handler returned as the body, and the transport status the application code
set (`none`: the handler returned a bare dict and set no status). -/
structure ClientResponse where
  wireStatus : Option Nat
  body : ErrorEnvelope
deriving Repr, DecidableEq

/-- The `http_exception_handler`: logs at warning level (no stack trace) and
returns the envelope dict built from the exception's detail and status code. -/
def http_exception_handler (status_code : Nat) (detail : String) :
    ErrorEnvelope × LogEntry :=
  ({ success := false, error := detail, status_code := status_code },
   ⟨.warning, "HTTP Exception: " ++ toString status_code ++ " - " ++ detail, false⟩)

/-- The `general_exception_handler`: logs at error level with
`exc_info=True` (full stack trace) and returns the fixed envelope dict. -/
def general_exception_handler (excMsg : String) : ErrorEnvelope × LogEntry :=
  ({ success := false, error := "Internal server error", status_code := 500 },
   ⟨.error, "Unhandled Exception: " ++ excMsg, true⟩)

/-- Exception dispatch as FastAPI performs it for this application: an
`HTTPException` goes to `http_exception_handler`, every other exception to
`general_exception_handler`. -/
def dispatchError : AppError → ClientResponse × LogEntry
  | .httpException status_code detail =>
      let handled := http_exception_handler status_code detail
      (⟨none, handled.1⟩, handled.2)
  | .raw msg =>
      let handled := general_exception_handler msg
      (⟨none, handled.1⟩, handled.2)

/-- Outcome of a request to `GET /api/health` as the client sees it: the
success body, or the dispatched error response. -/
inductive ClientResult where
  | success (body : HealthBody)
  | failure (response : ClientResponse)
deriving Repr, DecidableEq

/-- A whole `GET /api/health` request: dependency resolution, the handler,
and exception dispatch, together with every log entry emitted. -/
def api_health_request (now : Datetime) (activeUsers : Nat)
    (acquireDb : Except String (Except String Nat)) :
    ClientResult × List LogEntry :=
  match health_endpoint now activeUsers acquireDb with
  | (.ok body, logs) => (.success body, logs)
  | (.error e, logs) =>
      let handled := dispatchError e
      (.failure handled.1, logs ++ [handled.2])

/-! ## Request timing middleware -/

/-- Rendering of `f-string` formatting of the elapsed seconds with three
decimals (`{process_time:.3f}`).  The wall-clock subtraction
`(datetime.utcnow() - start_time).total_seconds()` is modelled at
microsecond precision, with ties rounded half up (binary floating point
rounds half to even, a difference only at exact half-millisecond ties). -/
def fmt3 (elapsedUs : Nat) : String :=
  let millis := (elapsedUs + 500) / 1000
  toString (millis / 1000) ++ String.mk ('.' :: pad3 (millis % 1000))

/-- The `log_requests` middleware: records a start instant, awaits
`call_next`, computes the elapsed wall-clock duration and emits the debug
log line; there is no `try` around `call_next`, so a downstream exception
propagates unchanged.  `startUs`/`endUs` are the two `datetime.utcnow()`
readings, in microseconds. -/
def log_requests (call_next : Request → Except String Response)
    (startUs endUs : Nat) (request : Request) :
    Except String (Response × LogEntry) :=
  match call_next request with
  | .error e => .error e
  | .ok response =>
      .ok (response,
        ⟨.debug,
         request.method ++ " " ++ request.path ++ " - Status: " ++
           toString response.status_code ++ " - Time: " ++
           fmt3 (endUs - startUs) ++ "s",
         false⟩)

/-! ## Trusted-host middleware

`main.py` installs `TrustedHostMiddleware` with
`allowed_hosts=["localhost", "127.0.0.1", "*.example.com"]`.  The middleware
itself is framework code, not part of this repository; its matching is
modelled from the spec: exact hostnames plus one wildcard subdomain pattern,
evaluated before route dispatch, rejecting with a 4xx-class response. -/

/-- The allow-list configured in `main.py`. -/
def allowed_hosts : List String :=
  ["localhost", "127.0.0.1", "*.example.com"]

/-- Modelled from the spec: a single allow-list entry matches a host either
exactly, or, when the entry starts with `*`, whenever the host ends with the
rest of the entry (the wildcard subdomain pattern). -/
def hostMatches (pat host : String) : Bool :=
  match pat.data with
  | '*' :: rest => List.isSuffixOf rest host.data
  | _ => pat == host

/-- A request's `Host` header is allowed when some allow-list entry matches. -/
def hostAllowed (host : String) : Bool :=
  allowed_hosts.any (fun pat => hostMatches pat host)

/-- The 4xx rejection the trusted-host middleware sends for a bad host. -/
def rejected_response : Response :=
  { status_code := 400, headers := [], body := "Invalid host header" }

/-- Modelled from the spec: the trusted-host middleware passes an allowed
request to the next handler and rejects every other request before route
dispatch. -/
def trusted_host_middleware (call_next : Request → Except String Response)
    (request : Request) : Except String Response :=
  if hostAllowed request.host then call_next request
  else .ok rejected_response

/-! ## Legacy bootstrap variant

The spec describes two near-duplicate bootstrap files; only `main.py` is
present under `src/`.  The legacy variant's two distinguishing behaviours
are modelled from the spec. -/

/-- Modelled from the spec: the body of the legacy variant's `GET /health`
endpoint, the fixed dict with the single key `status` set to `"ok"`. -/
structure LegacyHealthBody where
  status : String
deriving Repr, DecidableEq

/-- Modelled from the spec: the legacy variant's `GET /health` handler; a
total function, so the endpoint never fails. -/
def legacy_health : LegacyHealthBody :=
  { status := "ok" }

/-- Modelled from the spec: the legacy variant's timing middleware, which
attaches the elapsed duration as an `X-Process-Time` response header on
every response instead of the debug log line. -/
def legacy_log_requests (call_next : Request → Except String Response)
    (startUs endUs : Nat) (request : Request) : Except String Response :=
  match call_next request with
  | .error e => .error e
  | .ok response =>
      .ok { response with
            headers := ("X-Process-Time", fmt3 (endUs - startUs)) :: response.headers }

/-! ## Concrete fixtures used by closed theorems -/

/-- A concrete instant for closed evaluations. -/
def dt0 : Datetime :=
  ⟨2024, 1, 2, 3, 4, 5, 0⟩

/-- A concrete valid instant with a nonzero microsecond field. -/
def dtW : Datetime :=
  ⟨2024, 3, 15, 12, 30, 45, 123456⟩

/-- A concrete configuration snapshot. -/
def settingsW : Settings :=
  { APP_NAME := "VDI Platform", DEBUG := false, CORS_ORIGINS := ["http://localhost:3000"] }

/-- A concrete downstream response. -/
def okResp : Response :=
  { status_code := 200, headers := [], body := "root" }

/-- A downstream handler that always succeeds with `okResp`. -/
def okNext : Request → Except String Response :=
  fun _ => .ok okResp

/-- A downstream handler that always raises. -/
def errNext : Request → Except String Response :=
  fun _ => .error "boom"

/-- A request carrying a host outside the allow-list. -/
def reqAttacker : Request :=
  { method := "GET", path := "/", host := "attacker.com" }

/-- A request carrying the allowed host `localhost`. -/
def reqLocal : Request :=
  { method := "GET", path := "/", host := "localhost" }

/-! ## Helper lemmas -/

/-- Digits zero through nine render as digit characters. -/
theorem digitChar_lt_isDigit : ∀ k : Nat, k < 10 → (Nat.digitChar k).isDigit = true := by
  decide

/-- A digit extracted with `% 10` always renders as a digit character. -/
theorem digitChar_mod_isDigit (n : Nat) : (Nat.digitChar (n % 10)).isDigit = true :=
  digitChar_lt_isDigit _ (Nat.mod_lt _ (by decide))

/-- Every `isoformat` output parses as an ISO-8601 combined date-time. -/
theorem isoformat_isISO (d : Datetime) : isISO8601 (isoformat d) = true := by
  show isISO8601Chars (isoformatChars d) = true
  unfold isoformatChars
  by_cases h : d.microsecond = 0
  · simp [h, isISO8601Chars, pad4, pad2, digitChar_mod_isDigit]
  · simp [h, isISO8601Chars, sixDigitFrac, pad4, pad2, pad6, digitChar_mod_isDigit]

/-- The `{:.3f}` rendering always consists of an integer part, a point, and
exactly three digit characters. -/
theorem fmt3_format (x : Nat) :
    ∃ c1 c2 c3,
      fmt3 x = toString ((x + 500) / 1000 / 1000) ++ String.mk ['.', c1, c2, c3] ∧
      c1.isDigit = true ∧ c2.isDigit = true ∧ c3.isDigit = true :=
  ⟨Nat.digitChar ((x + 500) / 1000 % 1000 / 100 % 10),
   Nat.digitChar ((x + 500) / 1000 % 1000 / 10 % 10),
   Nat.digitChar ((x + 500) / 1000 % 1000 % 10),
   rfl, digitChar_mod_isDigit _, digitChar_mod_isDigit _, digitChar_mod_isDigit _⟩

/-! ## Claim theorems -/

/-- C1: when the count query of `GET /api/health` raises, the endpoint logs
the exception server-side and raises a 500 `HTTPException` whose detail is
exactly `"Health check failed"`; the raised response is the same constant for
every exception, so no internal error detail reaches the response. -/
theorem health_check_db_error_detail (now : Datetime) (activeUsers : Nat) (e : String) :
    health_check now activeUsers (.error e) =
      (.error (.httpException 500 "Health check failed"),
       [⟨.error, "Health check failed: " ++ e, false⟩]) ∧
    (∀ e1 e2 : String,
      (health_check now activeUsers (.error e1)).1 =
        (health_check now activeUsers (.error e2)).1) :=
  ⟨rfl, fun _ _ => rfl⟩

/-- C2 (counterexample): with a failing count query, the dispatched response
body's error field is `"Health check failed"`, not `"Internal server error"`
— the raised `HTTPException` is handled by `http_exception_handler`, not by
`general_exception_handler`. -/
theorem api_health_db_error_body_cex :
    (api_health_request dt0 0 (.ok (.error "connection refused"))).1 ≠
      ClientResult.failure
        ⟨none, { success := false, error := "Internal server error", status_code := 500 }⟩ ∧
    (api_health_request dt0 0 (.ok (.error "connection refused"))).1 =
      ClientResult.failure
        ⟨none, { success := false, error := "Health check failed", status_code := 500 }⟩ := by
  constructor
  · decide
  · rfl

/-- C2 (amended): when the count query raises, the client receives the
envelope `{success: false, error: "Health check failed", status_code: 500}`;
the 500 is carried in the envelope's `status_code` field. -/
theorem api_health_db_error_envelope (now : Datetime) (activeUsers : Nat) (e : String) :
    (api_health_request now activeUsers (.ok (.error e))).1 =
      .failure ⟨none, { success := false, error := "Health check failed", status_code := 500 }⟩ ∧
    (api_health_request now activeUsers (.ok (.error e))).1 ≠
      .failure ⟨none, { success := false, error := "Internal server error", status_code := 500 }⟩ := by
  refine ⟨rfl, ?_⟩
  show ClientResult.failure
      ⟨none, { success := false, error := "Health check failed", status_code := 500 }⟩ ≠
    ClientResult.failure
      ⟨none, { success := false, error := "Internal server error", status_code := 500 }⟩
  decide

/-- C3 (counterexample): the general exception handler returns a bare dict
and sets no HTTP transport status, so the transport status it sets is not
500; the 500 appears only in the body's `status_code` field. -/
theorem general_exception_handler_wire_cex :
    (dispatchError (.raw "division by zero")).1.wireStatus ≠ some 500 ∧
    (dispatchError (.raw "division by zero")).1.body =
      { success := false, error := "Internal server error", status_code := 500 } := by
  constructor
  · decide
  · rfl

/-- C3 (amended): any non-HTTP exception is logged at error level with the
full stack trace and answered with the envelope
`{success: false, error: "Internal server error", status_code: 500}` as the
response body; the handler sets no transport status, and the response is the
same constant for every exception message, which therefore never reaches the
caller. -/
theorem general_exception_handler_envelope (excMsg : String) :
    dispatchError (.raw excMsg) =
      (⟨none, { success := false, error := "Internal server error", status_code := 500 }⟩,
       ⟨.error, "Unhandled Exception: " ++ excMsg, true⟩) ∧
    (∀ m1 m2 : String, (dispatchError (.raw m1)).1 = (dispatchError (.raw m2)).1) :=
  ⟨rfl, fun _ _ => rfl⟩

/-- C4 (counterexample): the HTTP-exception handler returns a bare dict and
sets no HTTP transport status, so the transport status it sets is not the
error's original 404; the 404 appears only in the body's `status_code`. -/
theorem http_exception_handler_wire_cex :
    (dispatchError (.httpException 404 "Not Found")).1.wireStatus ≠ some 404 ∧
    (dispatchError (.httpException 404 "Not Found")).1.body.status_code = 404 := by
  constructor
  · decide
  · rfl

/-- C4 (amended): an explicit HTTP error is logged at warning level and
answered with the envelope `{success: false, error: <message>,
status_code: <code>}` carrying the original status code in the body; the
handler sets no HTTP transport status. -/
theorem http_exception_handler_envelope (status_code : Nat) (detail : String) :
    dispatchError (.httpException status_code detail) =
      (⟨none, { success := false, error := detail, status_code := status_code }⟩,
       ⟨.warning, "HTTP Exception: " ++ toString status_code ++ " - " ++ detail, false⟩) ∧
    (dispatchError (.httpException status_code detail)).1.wireStatus = none :=
  ⟨rfl, rfl⟩

/-- C5: `GET /` answers with status `"healthy"`, the configured app name,
version `"1.0.0"`, an ISO-8601 timestamp, and the websocket manager's live
session count, a natural number and hence nonnegative. -/
theorem root_endpoint_spec (settings : Settings) (now : Datetime) (activeUsers : Nat)
    (h : now.Valid) :
    root settings now activeUsers =
      { status := "healthy", service := settings.APP_NAME, version := "1.0.0",
        timestamp := isoformat now, active_users := activeUsers } ∧
    isISO8601 (root settings now activeUsers).timestamp = true ∧
    0 ≤ (root settings now activeUsers).active_users :=
  ⟨rfl, isoformat_isISO now, Nat.zero_le _⟩

/-- C6: when the count query succeeds, `GET /api/health` answers with
exactly the six-field body, `database = "connected"`,
`websocket_manager = "active"`, and `total_users` equal to the query's
count. -/
theorem health_check_ok_spec (now : Datetime) (activeUsers total : Nat) :
    health_check now activeUsers (.ok total) =
      (.ok { status := "ok", timestamp := isoformat now, database := "connected",
             websocket_manager := "active", active_users := activeUsers,
             total_users := total }, []) :=
  rfl

/-- C7: the trusted-host middleware rejects every request whose host is
outside the allow-list with a 4xx response, without invoking the next
handler, and `localhost` passes through untouched. -/
theorem trusted_host_spec (call_next call_next2 : Request → Except String Response)
    (request : Request) :
    (hostAllowed request.host = false →
      trusted_host_middleware call_next request = .ok rejected_response ∧
      400 ≤ rejected_response.status_code ∧ rejected_response.status_code < 500 ∧
      trusted_host_middleware call_next request = trusted_host_middleware call_next2 request) ∧
    hostAllowed "localhost" = true ∧
    (request.host = "localhost" → trusted_host_middleware call_next request = call_next request) := by
  refine ⟨?_, by decide, ?_⟩
  · intro h
    refine ⟨?_, by decide, by decide, ?_⟩
    · simp [trusted_host_middleware, h]
    · simp [trusted_host_middleware, h]
  · intro h
    have hA : hostAllowed request.host = true := by rw [h]; decide
    simp [trusted_host_middleware, hA]

/-- C8: the timing middleware propagates downstream exceptions unchanged;
on success it returns the downstream response untouched and emits a debug
log line `METHOD PATH - Status: <code> - Time: <seconds>s` whose elapsed
time is rendered with exactly three decimals. -/
theorem log_requests_spec (call_next : Request → Except String Response)
    (startUs endUs : Nat) (request : Request) :
    (∀ e, call_next request = .error e →
      log_requests call_next startUs endUs request = .error e) ∧
    (∀ response, call_next request = .ok response →
      log_requests call_next startUs endUs request =
        .ok (response,
          ⟨.debug,
           request.method ++ " " ++ request.path ++ " - Status: " ++
             toString response.status_code ++ " - Time: " ++
             fmt3 (endUs - startUs) ++ "s",
           false⟩) ∧
      ∃ c1 c2 c3,
        fmt3 (endUs - startUs) =
          toString ((endUs - startUs + 500) / 1000 / 1000) ++ String.mk ['.', c1, c2, c3] ∧
        c1.isDigit = true ∧ c2.isDigit = true ∧ c3.isDigit = true) := by
  constructor
  · intro e he
    unfold log_requests
    rw [he]
  · intro response hr
    refine ⟨?_, fmt3_format (endUs - startUs)⟩
    unfold log_requests
    rw [hr]

/-- C9: the legacy variant's `GET /health` returns `{status: "ok"}` (a total
function, so it never fails), and the legacy timing middleware attaches an
`X-Process-Time` header to every response it returns. -/
theorem legacy_variant_spec (call_next : Request → Except String Response)
    (startUs endUs : Nat) (request : Request) :
    legacy_health = { status := "ok" } ∧
    (∀ response, call_next request = .ok response →
      ∃ out, legacy_log_requests call_next startUs endUs request = .ok out ∧
        out.headers.lookup "X-Process-Time" = some (fmt3 (endUs - startUs)) ∧
        out.status_code = response.status_code ∧ out.body = response.body) := by
  refine ⟨rfl, ?_⟩
  intro response hr
  unfold legacy_log_requests
  rw [hr]
  exact ⟨_, rfl, rfl, rfl, rfl⟩

/-- C10: a failure while acquiring the database session happens before the
handler's `try` block: it propagates as the raw exception, is handled by the
general handler (so the client sees `"Internal server error"`, not
`"Health check failed"`), and the `"Health check failed"` 500 arises exactly
when the session was acquired and the count query itself raised. -/
theorem health_dependency_spec (now : Datetime) (activeUsers : Nat) :
    (∀ e, health_endpoint now activeUsers (.error e) = (.error (.raw e), []) ∧
      AppError.raw e ≠ .httpException 500 "Health check failed" ∧
      (api_health_request now activeUsers (.error e)).1 ≠
        .failure ⟨none, { success := false, error := "Health check failed", status_code := 500 }⟩) ∧
    (∀ acquireDb : Except String (Except String Nat),
      (health_endpoint now activeUsers acquireDb).1 =
          .error (.httpException 500 "Health check failed") ↔
        ∃ e, acquireDb = .ok (.error e)) := by
  constructor
  · intro e
    refine ⟨rfl, by simp, ?_⟩
    show ClientResult.failure
        ⟨none, { success := false, error := "Internal server error", status_code := 500 }⟩ ≠
      ClientResult.failure
        ⟨none, { success := false, error := "Health check failed", status_code := 500 }⟩
    decide
  · intro acquireDb
    rcases acquireDb with e | cr
    · simp [health_endpoint]
    · rcases cr with e | n
      · simp [health_endpoint, health_check]
      · simp [health_endpoint, health_check]

/-- C5 (witness): the root endpoint property at a concrete configuration,
instant and session count. -/
theorem root_endpoint_spec_witness :
    root settingsW dtW 3 =
      { status := "healthy", service := settingsW.APP_NAME, version := "1.0.0",
        timestamp := isoformat dtW, active_users := 3 } ∧
    isISO8601 (root settingsW dtW 3).timestamp = true ∧
    0 ≤ (root settingsW dtW 3).active_users :=
  root_endpoint_spec settingsW dtW 3 (by decide)

/-- C7 (witness): `attacker.com` is rejected with the 4xx response and
`localhost` reaches the downstream handler. -/
theorem trusted_host_spec_witness :
    trusted_host_middleware okNext reqAttacker = .ok rejected_response ∧
    trusted_host_middleware okNext reqLocal = okNext reqLocal :=
  ⟨((trusted_host_spec okNext okNext reqAttacker).1 (by decide)).1,
   (trusted_host_spec okNext okNext reqLocal).2.2 rfl⟩

/-- C8 (witness): the timing middleware at concrete instants, once with a
raising downstream handler and once with a succeeding one. -/
theorem log_requests_spec_witness :
    log_requests errNext 0 0 reqLocal = .error "boom" ∧
    log_requests okNext 1000 3500 reqLocal =
      .ok (okResp,
        ⟨.debug,
         reqLocal.method ++ " " ++ reqLocal.path ++ " - Status: " ++
           toString okResp.status_code ++ " - Time: " ++ fmt3 2500 ++ "s",
         false⟩) :=
  ⟨(log_requests_spec errNext 0 0 reqLocal).1 "boom" rfl,
   ((log_requests_spec okNext 1000 3500 reqLocal).2 okResp rfl).1⟩

/-- C9 (witness): the legacy endpoint body and the `X-Process-Time` header
at a concrete request. -/
theorem legacy_variant_spec_witness :
    legacy_health = { status := "ok" } ∧
    ∃ out, legacy_log_requests okNext 0 2000 reqLocal = .ok out ∧
      out.headers.lookup "X-Process-Time" = some (fmt3 2000) ∧
      out.status_code = okResp.status_code ∧ out.body = okResp.body :=
  ⟨(legacy_variant_spec okNext 0 2000 reqLocal).1,
   (legacy_variant_spec okNext 0 2000 reqLocal).2 okResp rfl⟩
